import Mathlib

/-!
Verification of the callout-pip-alert incident pipeline.

Shallow embedding of the backend Lambda handlers:
  src/packages/functions/src/handlers/incidents.ts
  src/packages/functions/src/handlers/incident-streams.ts
  src/packages/functions/src/handlers/alarm-handler.ts (alarm ingestion and game mode)

DynamoDB tables are modelled as Lean lists of records keyed by their id
attribute; a DynamoDB UpdateCommand without a ConditionExpression is an
unconditional map over the matching record; JavaScript truthiness on
optional strings and numbers is modelled by explicit helper functions.
All timestamps (Date.now()) are integers of milliseconds.
-/

/-- Incident state, the `state` attribute: "triggered" | "acked" | "resolved"
(src/packages/functions/src/types/index.ts). -/
inductive IncState where
  | triggered
  | acked
  | resolved
deriving DecidableEq, Repr

/-- The string stored in the `state` attribute for each state. -/
def IncState.toStr : IncState → String
  | .triggered => "triggered"
  | .acked => "acked"
  | .resolved => "resolved"

/-- Incident severity: "critical" | "warning" | "info"
(src/packages/functions/src/types/index.ts). -/
inductive Severity where
  | critical
  | warning
  | info
deriving DecidableEq, Repr

/-- Lowercase string form of a severity. -/
def Severity.toStr : Severity → String
  | .critical => "critical"
  | .warning => "warning"
  | .info => "info"

/-- `severity.toUpperCase()` as used in notification titles. -/
def Severity.upper : Severity → String
  | .critical => "CRITICAL"
  | .warning => "WARNING"
  | .info => "INFO"

/-- TimelineEntry (src/packages/functions/src/types/index.ts). The event kind
is kept as the raw string written by the handlers. -/
structure TimelineEntry where
  timestamp : Int
  event : String
  actor : String
  note : Option String := none
deriving DecidableEq, Repr

/-- Incident record (src/packages/functions/src/types/index.ts), with the
`acked_by` attribute that incident-streams.ts reads from stream images. -/
structure Incident where
  incident_id : String
  team_id : String
  alarm_arn : String
  alarm_name : String
  state : IncState
  severity : Severity
  assigned_to : String
  escalation_level : Nat := 0
  triggered_at : Int
  acked_at : Option Int := none
  resolved_at : Option Int := none
  acked_by : Option String := none
  timeline : List TimelineEntry
deriving DecidableEq, Repr

/-- JavaScript truthiness of an optional string (`undefined` and `""` are
falsy). -/
def jsTruthyStr : Option String → Bool
  | some s => !(s == "")
  | none => false

/-- JavaScript `a || d` for an optional string `a`: the default is used when
the value is absent or the empty string. -/
def jsOrStr (a : Option String) (d : String) : String :=
  match a with
  | some s => if s == "" then d else s
  | none => d

/-- JavaScript `a || d` for an optional number `a` (here a Nat): the default
is used when the value is absent or zero. -/
def jsOrNat (a : Option Nat) (d : Nat) : Nat :=
  match a with
  | some n => if n == 0 then d else n
  | none => d

/-- Lookup of an incident by its `incident_id` key (DynamoDB GetCommand on
the incidents table). -/
def getIncident (store : List Incident) (id : String) : Option Incident :=
  store.find? (fun i => i.incident_id == id)

/-- DynamoDB UpdateCommand on the incidents table: the record with the given
key is replaced by `f` applied to it; other records are untouched. -/
def updateIncident (store : List Incident) (id : String) (f : Incident → Incident) :
    List Incident :=
  store.map (fun i => if i.incident_id == id then f i else i)

/-- The update applied by POST /incidents/\x7bid\x7d/ack
(src/packages/functions/src/handlers/incidents.ts lines 85-105):
SET state = acked, acked_at = now, timeline = list_append(timeline, entry).
There is no ConditionExpression: the update applies whatever the current
state is. -/
def ackIncident (userId : String) (now : Int) (inc : Incident) : Incident :=
  { inc with
    state := .acked
    acked_at := some now
    timeline := inc.timeline ++ [{ timestamp := now, event := "acked", actor := userId }] }

/-- The update applied by POST /incidents/\x7bid\x7d/resolve
(src/packages/functions/src/handlers/incidents.ts lines 119-141):
SET state = resolved, resolved_at = now, timeline = list_append(timeline, entry).
Again there is no ConditionExpression. -/
def resolveIncident (userId : String) (note : Option String) (now : Int)
    (inc : Incident) : Incident :=
  { inc with
    state := .resolved
    resolved_at := some now
    timeline := inc.timeline ++
      [{ timestamp := now, event := "resolved", actor := userId, note := note }] }

/-- The update applied by POST /incidents/\x7bid\x7d/reassign
(src/packages/functions/src/handlers/incidents.ts lines 161-180). -/
def reassignIncident (userId newUserId : String) (now : Int) (inc : Incident) : Incident :=
  { inc with
    assigned_to := newUserId
    timeline := inc.timeline ++
      [{ timestamp := now, event := "reassigned", actor := userId,
         note := some ("Reassigned to " ++ newUserId) }] }

/-- GET /incidents (src/packages/functions/src/handlers/incidents.ts lines
18-55). With both query parameters the team-state-index is queried on
(team_id, state); with only team_id it is queried on team_id; otherwise the
handler queries the index for the hard-coded team "default", ignoring any
state parameter. The index holds every incident (all carry team_id and
state), so each query is a filter of the table. -/
def listIncidents (store : List Incident) (teamId state : Option String) :
    List Incident :=
  if jsTruthyStr teamId && jsTruthyStr state then
    store.filter (fun i => i.team_id == teamId.getD "" && i.state.toStr == state.getD "")
  else if jsTruthyStr teamId then
    store.filter (fun i => i.team_id == teamId.getD "")
  else
    store.filter (fun i => i.team_id == "default")

/-- Responses produced by the incidents handler. `conflict` is part of the
response vocabulary only for comparison with the specification: no handler
in the source ever constructs it. -/
inductive Resp where
  | ok (incident : Incident)
  | okList (incidents : List Incident)
  | badRequest (msg : String)
  | unauthorized
  | notFound
  | serverError
  | conflict
deriving DecidableEq, Repr

/-- HTTP status code of each response (jsonResponse in
src/packages/functions/src/types/index.ts callers). -/
def Resp.status : Resp → Nat
  | .ok _ => 200
  | .okList _ => 200
  | .badRequest _ => 400
  | .unauthorized => 401
  | .notFound => 404
  | .serverError => 500
  | .conflict => 409

/-- The incidents API handler (src/packages/functions/src/handlers/incidents.ts).
The rawPath is modelled as its slash-separated segments; a regex
`[^/]+` segment therefore corresponds to a nonempty segment. The parsed
JSON body is modelled by its two used fields (`note` for resolve, `user_id`
for reassign). An UpdateCommand whose `list_append(timeline, ...)` targets a
missing item throws, which the catch block turns into a 500 response with
the table unchanged. -/
def incidentsHandler (userId? : Option String) (method : String) (path : List String)
    (queryState queryTeam bodyNote bodyUserId : Option String) (now : Int)
    (store : List Incident) : Resp × List Incident :=
  match userId? with
  | none => (.unauthorized, store)
  | some userId =>
    match method, path with
    | "GET", ["incidents"] =>
      (.okList (listIncidents store queryTeam queryState), store)
    | "GET", ["incidents", id] =>
      if id == "" then (.notFound, store)
      else
        match getIncident store id with
        | none => (.notFound, store)
        | some inc => (.ok inc, store)
    | "POST", ["incidents", id, "ack"] =>
      if id == "" then (.notFound, store)
      else
        match getIncident store id with
        | none => (.serverError, store)
        | some inc =>
          (.ok (ackIncident userId now inc),
           updateIncident store id (fun _ => ackIncident userId now inc))
    | "POST", ["incidents", id, "resolve"] =>
      if id == "" then (.notFound, store)
      else
        match getIncident store id with
        | none => (.serverError, store)
        | some inc =>
          (.ok (resolveIncident userId bodyNote now inc),
           updateIncident store id (fun _ => resolveIncident userId bodyNote now inc))
    | "POST", ["incidents", id, "reassign"] =>
      if id == "" then (.notFound, store)
      else if !(jsTruthyStr bodyUserId) then (.badRequest "Missing user_id", store)
      else
        match getIncident store id with
        | none => (.serverError, store)
        | some inc =>
          (.ok (reassignIncident userId (bodyUserId.getD "") now inc),
           updateIncident store id (fun _ => reassignIncident userId (bodyUserId.getD "") now inc))
    | _, _ => (.notFound, store)

/-- Number of "resolved" entries in an incident timeline. -/
def countResolvedEntries (inc : Incident) : Nat :=
  (inc.timeline.filter (fun e => e.event == "resolved")).length

/-! The change-detection notifier
(src/packages/functions/src/handlers/incident-streams.ts). -/

/-- DynamoDB stream event name. -/
inductive StreamEventName where
  | INSERT
  | MODIFY
  | REMOVE
deriving DecidableEq, Repr

/-- One DynamoDB stream record, with its unmarshalled images. -/
structure StreamRecord where
  eventName : StreamEventName
  newImage : Option Incident := none
  oldImage : Option Incident := none
deriving DecidableEq, Repr

/-- StateChange (src/packages/functions/src/handlers/incident-streams.ts
lines 13-19). -/
structure StateChange where
  type : StreamEventName
  oldState : Option IncState := none
  newState : Option IncState := none
  incident : Incident
  oldIncident : Option Incident := none
deriving DecidableEq, Repr

/-- parseStateChange (src/packages/functions/src/handlers/incident-streams.ts
lines 63-108). A MODIFY whose state did not change is dropped. -/
def parseStateChange (r : StreamRecord) : Option StateChange :=
  match r.eventName, r.newImage, r.oldImage with
  | .INSERT, some n, _ =>
    some { type := .INSERT, newState := some n.state, incident := n }
  | .MODIFY, some n, some o =>
    if o.state = n.state then none
    else
      some { type := .MODIFY, oldState := some o.state, newState := some n.state,
             incident := n, oldIncident := some o }
  | .REMOVE, _, some o =>
    some { type := .REMOVE, oldState := some o.state, incident := o }
  | _, _, _ => none

/-- PushNotification content (src/packages/functions/src/lib/apns.ts shape as
used by incident-streams.ts). -/
structure PushNotification where
  title : String
  body : String
  sound : String
  interruptionLevel : String
deriving DecidableEq, Repr

/-- The severity emoji used in new-incident titles. -/
def severityEmoji : Severity → String
  | .critical => "🔴"
  | .warning => "🟡"
  | .info => "🟢"

/-- buildNotification (src/packages/functions/src/handlers/incident-streams.ts
lines 110-158). -/
def buildNotification (change : StateChange) : Option PushNotification :=
  let inc := change.incident
  if change.type = .INSERT ∧ change.newState = some .triggered then
    some { title := severityEmoji inc.severity ++ " " ++ inc.severity.upper ++ ": " ++
             inc.alarm_name
           body := jsOrStr (inc.timeline.head?.bind (fun e => e.note)) "New alarm triggered"
           sound := if inc.severity = .critical then "critical_alarm.caf" else "default"
           interruptionLevel := if inc.severity = .critical then "critical"
             else "time-sensitive" }
  else if change.type = .MODIFY then
    if change.oldState = some .triggered ∧ change.newState = some .acked then
      some { title := "✓ Acknowledged: " ++ inc.alarm_name
             body := "Acked by " ++ jsOrStr inc.acked_by "teammate"
             sound := "default"
             interruptionLevel := "active" }
    else if change.oldState = some .acked ∧ change.newState = some .resolved then
      some { title := "✓ Resolved: " ++ inc.alarm_name
             body := "Incident has been resolved"
             sound := "default"
             interruptionLevel := "passive" }
    else if change.oldState = some .acked ∧ change.newState = some .triggered then
      some { title := "⚠ Unacked: " ++ inc.alarm_name
             body := "Incident requires attention again"
             sound := if inc.severity = .critical then "critical_alarm.caf" else "default"
             interruptionLevel := if inc.severity = .critical then "critical"
               else "time-sensitive" }
    else none
  else none

/-- The notification produced for one raw stream record: parseStateChange
followed by buildNotification, as the stream handler chains them. -/
def notifyOf (r : StreamRecord) : Option PushNotification :=
  (parseStateChange r).bind buildNotification

/-- Device registration (src/packages/functions/src/types/index.ts). -/
structure Device where
  user_id : String
  device_token : String
  platform : String
  created_at : Int
deriving DecidableEq, Repr

/-- Data attached to every dispatched push
(src/packages/functions/src/handlers/incident-streams.ts lines 45-55). -/
structure PushData where
  incident_id : String
  severity : Severity
  state : IncState
deriving DecidableEq, Repr

/-- The full payload handed to sendPushNotification: the notification content
plus the badge count and incident data. -/
structure PushPayload where
  title : String
  body : String
  sound : String
  interruptionLevel : String
  badge : Nat
  data : PushData
deriving DecidableEq, Repr

/-- getUserDevices: Query of the devices table on user_id
(src/packages/functions/src/handlers/incident-streams.ts lines 175-184). -/
def getUserDevices (devices : List Device) (userId : String) : List Device :=
  devices.filter (fun d => d.user_id == userId)

/-- getUnackedIncidentCount
(src/packages/functions/src/handlers/incident-streams.ts lines 186-197):
a Scan of the incidents table counting items with
assigned_to = uid AND state = "triggered". -/
def getUnackedIncidentCount (store : List Incident) (userId : String) : Nat :=
  (store.filter (fun i => i.assigned_to == userId && i.state == IncState.triggered)).length

/-- The stream handler body for a single record
(src/packages/functions/src/handlers/incident-streams.ts lines 22-56):
parse the change, build the notification, fetch the assignee devices, read
the badge count from the incidents table at dispatch time, and send one push
per device. Returns the (device, payload) pairs handed to
sendPushNotification. -/
def streamDispatch (store : List Incident) (devices : List Device)
    (r : StreamRecord) : List (Device × PushPayload) :=
  match parseStateChange r with
  | none => []
  | some change =>
    match buildNotification change with
    | none => []
    | some notif =>
      let targets := getUserDevices devices change.incident.assigned_to
      if targets.isEmpty then []
      else
        let badgeCount := getUnackedIncidentCount store change.incident.assigned_to
        targets.map (fun d =>
          (d, { title := notif.title, body := notif.body, sound := notif.sound,
                interruptionLevel := notif.interruptionLevel, badge := badgeCount,
                data := { incident_id := change.incident.incident_id,
                          severity := change.incident.severity,
                          state := change.incident.state } }))


/-! Alarm ingestion (src/packages/functions/src/handlers/alarm-handler.ts). -/

/-- Substring test on character lists: JavaScript String.prototype.includes. -/
def startsWithL : List Char → List Char → Bool
  | _, [] => true
  | [], _ :: _ => false
  | a :: as, b :: bs => a == b && startsWithL as bs

/-- includesL s pat holds iff pat occurs contiguously in s. -/
def includesL : List Char → List Char → Bool
  | [], pat => pat.isEmpty
  | c :: rest, pat => startsWithL (c :: rest) pat || includesL rest pat

/-- JavaScript s.includes(pat) on strings. -/
def jsIncludes (s pat : String) : Bool :=
  includesL s.data pat.data

/-- JavaScript s.toLowerCase(), restricted to the per-character lowering that
the ASCII alarm-name patterns of the handler exercise. -/
def jsToLower (s : String) : String :=
  ⟨s.data.map Char.toLower⟩

/-- determineSeverity (src/packages/functions/src/handlers/alarm-handler.ts
lines 141-150). -/
def determineSeverity (alarmName : String) : Severity :=
  let lowerName := jsToLower alarmName
  if jsIncludes lowerName "critical" || jsIncludes lowerName "error" then .critical
  else if jsIncludes lowerName "warning" || jsIncludes lowerName "warn" then .warning
  else .info

/-- CloudWatch alarm message fields used by the handler
(src/packages/functions/src/handlers/alarm-handler.ts lines 11-19). -/
structure CloudWatchAlarmMessage where
  AlarmName : String
  AlarmArn : String
  NewStateValue : String
  NewStateReason : String
  StateChangeTime : String
  Region : String
  AWSAccountId : String
deriving DecidableEq, Repr

/-- Schedule slot (src/packages/functions/src/types/index.ts). The source
field `end` is a Lean keyword and is embedded as `endTs`. -/
structure Schedule where
  team_id : String
  slot_id : String
  user_id : String
  start : Int
  endTs : Int
deriving DecidableEq, Repr

/-- findOnCallUser (src/packages/functions/src/handlers/alarm-handler.ts lines
107-127): Query of the schedules table on team_id with FilterExpression
start <= now AND end > now; the first matching item wins, and
`slot?.user_id || null` maps a missing or empty user_id to null. -/
def findOnCallUser (schedules : List Schedule) (teamId : String) (now : Int) :
    Option String :=
  let items := (schedules.filter (fun s => s.team_id == teamId)).filter
    (fun s => decide (s.start ≤ now) && decide (now < s.endTs))
  match items.head? with
  | some slot => if slot.user_id == "" then none else some slot.user_id
  | none => none

/-- The incident created for an ALARM message
(src/packages/functions/src/handlers/alarm-handler.ts lines 50-69), given the
resolved team, on-call responder and the fresh ulid. -/
def createIncident (msg : CloudWatchAlarmMessage) (teamId onCallUserId : String)
    (now : Int) (newId : String) : Incident :=
  { incident_id := newId
    team_id := teamId
    alarm_arn := msg.AlarmArn
    alarm_name := msg.AlarmName
    state := .triggered
    severity := determineSeverity msg.AlarmName
    assigned_to := onCallUserId
    escalation_level := 0
    triggered_at := now
    timeline := [{ timestamp := now, event := "triggered", actor := "system",
                   note := some msg.NewStateReason }] }

/-! Game mode (the game handler concatenated into
src/packages/functions/src/handlers/alarm-handler.ts, lines 246-651). -/

/-- ROUND_DURATION_MS = 60000. -/
def ROUND_DURATION_MS : Int := 60000

/-- The SEVERITIES record: info 1, warning 2, critical 3; any other key is
absent. -/
def severitiesLookup (s : String) : Option Nat :=
  if s == "info" then some 1
  else if s == "warning" then some 2
  else if s == "critical" then some 3
  else none

/-- The global session row stored under the GLOBAL_SESSION key of the scores
table. -/
structure GameSession where
  session_ends_at : Int
  started_at : Int
  started_by : String
deriving DecidableEq, Repr

/-- getGlobalSession activity test (alarm-handler.ts game section): the
session is active iff the row exists, its session_ends_at is truthy, and
Date.now() is not past it. -/
def sessionActive (session : Option GameSession) (now : Int) : Bool :=
  match session with
  | none => false
  | some s => !(s.session_ends_at == 0) && !(decide (now > s.session_ends_at))

/-- A game incident as written by POST /game/trigger. -/
structure GameIncident where
  incident_id : String
  alarm_name : String
  severity : String
  state : IncState
  team_id : String
  triggered_by : String
  triggered_by_name : String
  created_at : Int
  game : Bool
  point_multiplier : Nat
  acked_by : Option String := none
  acked_by_name : Option String := none
  acked_at : Option Int := none
deriving DecidableEq, Repr

/-- Result of POST /game/start. -/
inductive GameStartResult where
  | ok (ends_at : Int) (duration_ms : Int) (started_by : String)
  | conflict (ends_at : Int) (started_by : String)
deriving DecidableEq, Repr

/-- POST /game/start (alarm-handler.ts game section): conflict if a session
is active, otherwise a fresh session row ending ROUND_DURATION_MS from now. -/
def gameStart (session : Option GameSession) (now : Int) (displayName : String) :
    GameStartResult × Option GameSession :=
  if sessionActive session now then
    match session with
    | some s => (.conflict s.session_ends_at s.started_by, session)
    | none => (.conflict 0 "", session)
  else
    (.ok (now + ROUND_DURATION_MS) ROUND_DURATION_MS displayName,
     some { session_ends_at := now + ROUND_DURATION_MS, started_at := now,
            started_by := displayName })

/-- Result of POST /game/trigger. -/
inductive GameTriggerResult where
  | noActiveGame
  | titleRequired
  | titleTooLong
  | ok (incident_id : String) (title : String)
deriving DecidableEq, Repr

/-- JavaScript String.prototype.trim: whitespace stripped from both ends. -/
def jsTrim (s : String) : String :=
  ⟨((s.data.dropWhile Char.isWhitespace).reverse.dropWhile Char.isWhitespace).reverse⟩

/-- POST /game/trigger (alarm-handler.ts game section): rejected when no
session is active; otherwise validates the trimmed title and puts a
game-flagged triggered incident whose point_multiplier is
SEVERITIES[severity] || 2. -/
def gameTrigger (session : Option GameSession) (now : Int)
    (userId displayName : String) (bodyTitle bodySeverity : Option String)
    (newId : String) (store : List GameIncident) :
    GameTriggerResult × List GameIncident :=
  if !(sessionActive session now) then (.noActiveGame, store)
  else
    let title := (match bodyTitle with | some t => jsTrim t | none => "")
    let severity := jsOrStr bodySeverity "warning"
    if title == "" then (.titleRequired, store)
    else if decide (title.length > 50) then (.titleTooLong, store)
    else
      (.ok newId ("[GAME] " ++ title),
       store ++ [{ incident_id := newId
                   alarm_name := "[GAME] " ++ title
                   severity := severity
                   state := .triggered
                   team_id := "game"
                   triggered_by := userId
                   triggered_by_name := displayName
                   created_at := now
                   game := true
                   point_multiplier := jsOrNat (severitiesLookup severity) 2 }])

/-- One row of the scores table (per-user aggregate). -/
structure ScoreRow where
  user_id : String
  total_points : Nat
  total_acks : Nat
deriving DecidableEq, Repr

/-- The score UpdateCommand of a winning game ack:
total_points = if_not_exists(total_points, 0) + points and
total_acks = if_not_exists(total_acks, 0) + 1, creating the row when
absent. -/
def bumpScore (scores : List ScoreRow) (userId : String) (points : Nat) :
    List ScoreRow :=
  if scores.any (fun r => r.user_id == userId) then
    scores.map (fun r =>
      if r.user_id == userId then
        { r with total_points := r.total_points + points,
                 total_acks := r.total_acks + 1 }
      else r)
  else
    scores ++ [{ user_id := userId, total_points := points, total_acks := 1 }]

/-- Cumulative points of a user in the scores table (0 when no row exists). -/
def getScore (scores : List ScoreRow) (userId : String) : Nat :=
  match scores.find? (fun r => r.user_id == userId) with
  | some r => r.total_points
  | none => 0

/-- Result of POST /game/ack/\x7bid\x7d. `done success points` is the JSON
body `\x7bsuccess, points\x7d` of the 200 response. -/
inductive GameAckResult where
  | noActiveGame
  | notFound
  | notGame
  | done (success : Bool) (points : Nat)
deriving DecidableEq, Repr

/-- Math.round(10 * mult * speedBonus) of the winning branch, with speedBonus
2 below 2000 ms, 1.5 below 4000 ms and 1 otherwise. With the base of 10 every
product is an integer, so the rounding is exact: 10 * mult * 2 = 20 * mult,
10 * mult * 1.5 = 15 * mult, 10 * mult * 1 = 10 * mult. -/
def gameAckPoints (mult : Nat) (ackTime : Int) : Nat :=
  if ackTime < 2000 then 20 * mult
  else if ackTime < 4000 then 15 * mult
  else 10 * mult

/-- POST /game/ack/\x7bid\x7d (alarm-handler.ts game section). The handler
reads the incident, rejects non-game incidents, answers
`\x7bsuccess: false, points: 0\x7d` when the incident is no longer triggered
(the conditional update guarding the same check cannot fail in this
sequential model), and otherwise acks the incident, computes the points from
`point_multiplier || 1` and the elapsed time, and adds them to the acting
score row of the acting user. -/
def gameAck (session : Option GameSession) (now : Int)
    (userId displayName incidentId : String) (store : List GameIncident)
    (scores : List ScoreRow) :
    GameAckResult × List GameIncident × List ScoreRow :=
  if !(sessionActive session now) then (.noActiveGame, store, scores)
  else
    match store.find? (fun i => i.incident_id == incidentId) with
    | none => (.notFound, store, scores)
    | some inc =>
      if !inc.game then (.notGame, store, scores)
      else if inc.state ≠ IncState.triggered then (.done false 0, store, scores)
      else
        let ackTime := now - inc.created_at
        let mult := jsOrNat (some inc.point_multiplier) 1
        let points := gameAckPoints mult ackTime
        let inc2 := { inc with state := IncState.acked, acked_by := some userId,
                               acked_by_name := some displayName,
                               acked_at := some now }
        (.done true points,
         store.map (fun i => if i.incident_id == incidentId then inc2 else i),
         bumpScore scores userId points)

/-! Example incidents used to instantiate the theorems below. -/

/-- A triggered incident as created by alarm ingestion. -/
def exTriggeredInc : Incident :=
  { incident_id := "inc-2"
    team_id := "default"
    alarm_arn := "arn:cw:ex"
    alarm_name := "cpu high"
    state := .triggered
    severity := .warning
    assigned_to := "alice"
    triggered_at := 0
    timeline := [{ timestamp := 0, event := "triggered", actor := "system",
                   note := some "threshold crossed" }] }

/-- An acknowledged incident. -/
def exAckedInc : Incident :=
  { incident_id := "inc-3"
    team_id := "default"
    alarm_arn := "arn:cw:ex"
    alarm_name := "cpu high"
    state := .acked
    severity := .warning
    assigned_to := "alice"
    triggered_at := 0
    acked_at := some 10
    timeline := [{ timestamp := 0, event := "triggered", actor := "system",
                   note := some "threshold crossed" },
                 { timestamp := 10, event := "acked", actor := "alice" }] }

/-- A resolved incident with its single "resolved" timeline entry. -/
def exResolvedInc : Incident :=
  { incident_id := "inc-1"
    team_id := "default"
    alarm_arn := "arn:cw:ex"
    alarm_name := "cpu high"
    state := .resolved
    severity := .warning
    assigned_to := "alice"
    triggered_at := 0
    acked_at := some 10
    resolved_at := some 50
    timeline := [{ timestamp := 0, event := "triggered", actor := "system",
                   note := some "threshold crossed" },
                 { timestamp := 10, event := "acked", actor := "alice" },
                 { timestamp := 50, event := "resolved", actor := "alice" }] }

/-- Claim C1 counterexample: the ack route has no precondition. Acking the
already-resolved incident inc-1 is not rejected with a conflict: it answers
200 with the incident rewritten to state acked and a further "acked"
timeline entry appended, so the update is applied again rather than the
incident being left unchanged. -/
theorem ack_of_resolved_applies_again :
    exResolvedInc.state = IncState.resolved ∧
    incidentsHandler (some "bob") "POST" ["incidents", "inc-1", "ack"]
        none none none none 100 [exResolvedInc]
      = (Resp.ok (ackIncident "bob" 100 exResolvedInc),
         [ackIncident "bob" 100 exResolvedInc]) ∧
    (ackIncident "bob" 100 exResolvedInc).state = IncState.acked ∧
    (ackIncident "bob" 100 exResolvedInc).timeline.length
      = exResolvedInc.timeline.length + 1 ∧
    ackIncident "bob" 100 exResolvedInc ≠ exResolvedInc := by
  decide

/-- Claim C1 (amended): the ack route checks no precondition on the current
state. For every stored incident, whatever its state, it applies the full
update — state := acked, acked_at := now, exactly one appended "acked"
timeline entry naming the acting responder — answers 200 with the updated
incident, and never returns a conflict; hence acking twice applies the
update twice. -/
theorem ack_route_unconditional (u id : String) (now : Int)
    (qs qt bn bu : Option String) (store : List Incident) (inc : Incident)
    (hid : ¬(id = "")) (hfind : getIncident store id = some inc) :
    incidentsHandler (some u) "POST" ["incidents", id, "ack"] qs qt bn bu now store
      = (Resp.ok (ackIncident u now inc),
         updateIncident store id (fun _ => ackIncident u now inc)) ∧
    (ackIncident u now inc).state = IncState.acked ∧
    (ackIncident u now inc).acked_at = some now ∧
    (ackIncident u now inc).timeline
      = inc.timeline ++ [{ timestamp := now, event := "acked", actor := u }] ∧
    (incidentsHandler (some u) "POST" ["incidents", id, "ack"] qs qt bn bu
        now store).fst ≠ Resp.conflict := by
  have hb : (id == "") = false := by simp [hid]
  refine ⟨?_, rfl, rfl, rfl, ?_⟩
  · simp [incidentsHandler, hb, hfind]
  · simp [incidentsHandler, hb, hfind]

/-- Witness for the amended C1 theorem at a concrete triggered incident. -/
theorem ack_route_unconditional_witness :
    incidentsHandler (some "bob") "POST" ["incidents", "inc-2", "ack"]
        none none none none 100 [exTriggeredInc]
      = (Resp.ok (ackIncident "bob" 100 exTriggeredInc),
         updateIncident [exTriggeredInc] "inc-2"
           (fun _ => ackIncident "bob" 100 exTriggeredInc)) :=
  (ack_route_unconditional "bob" "inc-2" 100 none none none none
    [exTriggeredInc] exTriggeredInc (by decide) (by decide)).1

/-- Claim C2 counterexample: resolving the already-resolved incident inc-1 is
neither rejected with a conflict nor a timeline no-op: the route answers 200
and the stored timeline now carries a second "resolved" entry. -/
theorem second_resolve_appends_second_entry :
    exResolvedInc.state = IncState.resolved ∧
    countResolvedEntries exResolvedInc = 1 ∧
    incidentsHandler (some "bob") "POST" ["incidents", "inc-1", "resolve"]
        none none (some "dup note") none 200 [exResolvedInc]
      = (Resp.ok (resolveIncident "bob" (some "dup note") 200 exResolvedInc),
         [resolveIncident "bob" (some "dup note") 200 exResolvedInc]) ∧
    countResolvedEntries (resolveIncident "bob" (some "dup note") 200 exResolvedInc)
      = 2 := by
  decide

/-- Claim C2 (amended): the resolve route checks no precondition. For every
stored incident — resolved ones included — it sets state := resolved and
resolved_at := now, appends exactly one "resolved" timeline entry carrying
the optional note, answers 200 and never returns a conflict; on an
already-resolved incident this appends a second "resolved" entry. -/
theorem resolve_route_unconditional (u id : String) (note : Option String)
    (now : Int) (qs qt bu : Option String) (store : List Incident)
    (inc : Incident) (hid : ¬(id = ""))
    (hfind : getIncident store id = some inc) :
    incidentsHandler (some u) "POST" ["incidents", id, "resolve"] qs qt note bu
        now store
      = (Resp.ok (resolveIncident u note now inc),
         updateIncident store id (fun _ => resolveIncident u note now inc)) ∧
    (resolveIncident u note now inc).state = IncState.resolved ∧
    (resolveIncident u note now inc).resolved_at = some now ∧
    (resolveIncident u note now inc).timeline
      = inc.timeline ++
        [{ timestamp := now, event := "resolved", actor := u, note := note }] ∧
    countResolvedEntries (resolveIncident u note now inc)
      = countResolvedEntries inc + 1 ∧
    (incidentsHandler (some u) "POST" ["incidents", id, "resolve"] qs qt note bu
        now store).fst ≠ Resp.conflict := by
  have hb : (id == "") = false := by simp [hid]
  refine ⟨?_, rfl, rfl, rfl, ?_, ?_⟩
  · simp [incidentsHandler, hb, hfind]
  · simp [countResolvedEntries, resolveIncident]
  · simp [incidentsHandler, hb, hfind]

/-- Witness for the amended C2 theorem at a concrete acked incident. -/
theorem resolve_route_unconditional_witness :
    incidentsHandler (some "alice") "POST" ["incidents", "inc-3", "resolve"]
        none none (some "fixed") none 300 [exAckedInc]
      = (Resp.ok (resolveIncident "alice" (some "fixed") 300 exAckedInc),
         updateIncident [exAckedInc] "inc-3"
           (fun _ => resolveIncident "alice" (some "fixed") 300 exAckedInc)) :=
  (resolve_route_unconditional "alice" "inc-3" (some "fixed") 300 none none none
    [exAckedInc] exAckedInc (by decide) (by decide)).1

/-- Claim C3: the incidents API exposes no unack operation. A POST
/incidents/\x7bid\x7d/unack request matches no route of the handler: for
every caller, id, body and store — in particular for an acked incident that
unack should return to triggered — the handler answers 404 Not found and
leaves the store unchanged. -/
theorem unack_route_missing (u id : String) (qs qt bn bu : Option String)
    (now : Int) (store : List Incident) :
    incidentsHandler (some u) "POST" ["incidents", id, "unack"] qs qt bn bu
        now store
      = (Resp.notFound, store) := by
  rfl

/-- Notification table of the specification, for claim C4. The five
classification rules are written directly on the raw change event, in the
priority order of the spec: (1) insert with after.state = triggered; (2) modify
triggered to acked; (3) modify acked to resolved; (4) modify acked to
triggered; (5) anything else, none. The payload texts, which the spec leaves
open, are the ones observed in the implementation; the interruption levels
follow the spec (critical most intrusive on rule 1, least intrusive on rule
3, re-escalated on rule 4). -/
def specNotify (r : StreamRecord) : Option PushNotification :=
  match r.eventName, r.oldImage, r.newImage with
  | .INSERT, _, some after =>
    if after.state = .triggered then
      some { title := severityEmoji after.severity ++ " " ++ after.severity.upper ++
               ": " ++ after.alarm_name
             body := jsOrStr (after.timeline.head?.bind (fun e => e.note))
               "New alarm triggered"
             sound := if after.severity = .critical then "critical_alarm.caf"
               else "default"
             interruptionLevel := if after.severity = .critical then "critical"
               else "time-sensitive" }
    else none
  | .MODIFY, some before, some after =>
    if before.state = .triggered ∧ after.state = .acked then
      some { title := "✓ Acknowledged: " ++ after.alarm_name
             body := "Acked by " ++ jsOrStr after.acked_by "teammate"
             sound := "default"
             interruptionLevel := "active" }
    else if before.state = .acked ∧ after.state = .resolved then
      some { title := "✓ Resolved: " ++ after.alarm_name
             body := "Incident has been resolved"
             sound := "default"
             interruptionLevel := "passive" }
    else if before.state = .acked ∧ after.state = .triggered then
      some { title := "⚠ Unacked: " ++ after.alarm_name
             body := "Incident requires attention again"
             sound := if after.severity = .critical then "critical_alarm.caf"
               else "default"
             interruptionLevel := if after.severity = .critical then "critical"
               else "time-sensitive" }
    else none
  | _, _, _ => none

/-- Claim C4: the notifier pipeline (parseStateChange then buildNotification)
implements exactly the five-rule priority table of the specification: a
triggered insert notifies as a new incident with severity-derived
intrusiveness, modify triggered-to-acked notifies as acknowledged naming the
acker, modify acked-to-resolved notifies as resolved at the least intrusive
level, modify acked-to-triggered notifies as unacknowledged with
re-escalated urgency, and every other change — state-preserving
modifications such as reassignments, removals, and the remaining state
pairs — produces no notification. -/
theorem notifier_matches_spec_table (r : StreamRecord) :
    notifyOf r = specNotify r := by
  obtain ⟨ev, newImg, oldImg⟩ := r
  cases ev <;> cases newImg <;> cases oldImg <;>
    first
      | (rename_i n o
         cases hn : n.state <;> cases ho : o.state <;>
           simp [notifyOf, parseStateChange, specNotify, buildNotification, hn, ho])
      | (rename_i n
         cases hn : n.state <;>
           simp [notifyOf, parseStateChange, specNotify, buildNotification, hn])
      | simp [notifyOf, parseStateChange, specNotify, buildNotification]

/-- Claim C5: on-call resolution is sound and complete for the half-open
window [start, end). Any returned responder comes from a slot of the team
whose window contains now; when no slot of the team has a window containing
now the result is none, never a fabricated default; and on the two-slot
schedule [(t1,t2,a), (t2,t3,b)] of a team, resolution at t1 <= now < t2
returns a, at t2 <= now < t3 returns b, and outside [t1, t3) returns
none. -/
theorem findOnCall_correct (schedules : List Schedule) (teamId : String)
    (now : Int) :
    (∀ u, findOnCallUser schedules teamId now = some u →
       ∃ s, s ∈ schedules ∧ s.team_id = teamId ∧ s.start ≤ now ∧ now < s.endTs ∧
         s.user_id = u) ∧
    ((∀ s, s ∈ schedules → s.team_id = teamId → ¬(s.start ≤ now ∧ now < s.endTs)) →
       findOnCallUser schedules teamId now = none) ∧
    (∀ t1 t2 t3 a b, ¬(a = "") → ¬(b = "") →
       ((t1 ≤ now → now < t2 →
          findOnCallUser [⟨teamId, "s1", a, t1, t2⟩, ⟨teamId, "s2", b, t2, t3⟩]
            teamId now = some a) ∧
        (t2 ≤ now → now < t3 →
          findOnCallUser [⟨teamId, "s1", a, t1, t2⟩, ⟨teamId, "s2", b, t2, t3⟩]
            teamId now = some b) ∧
        (t1 ≤ t2 → t2 ≤ t3 → (now < t1 ∨ t3 ≤ now) →
          findOnCallUser [⟨teamId, "s1", a, t1, t2⟩, ⟨teamId, "s2", b, t2, t3⟩]
            teamId now = none))) := by
  refine ⟨?_, ?_, ?_⟩
  · intro u hu
    unfold findOnCallUser at hu
    cases hl : (schedules.filter (fun s => s.team_id == teamId)).filter
        (fun s => decide (s.start ≤ now) && decide (now < s.endTs)) with
    | nil => rw [hl] at hu; simp at hu
    | cons x xs =>
      rw [hl] at hu
      simp only [List.head?_cons] at hu
      by_cases he : x.user_id = ""
      · simp [he] at hu
      · simp [he] at hu
        have hx : x ∈ (schedules.filter (fun s => s.team_id == teamId)).filter
            (fun s => decide (s.start ≤ now) && decide (now < s.endTs)) := by
          rw [hl]; exact List.mem_cons_self x xs
        rw [List.mem_filter] at hx
        obtain ⟨hx1, hx2⟩ := hx
        rw [List.mem_filter] at hx1
        obtain ⟨hmem, hteam⟩ := hx1
        simp only [Bool.and_eq_true, decide_eq_true_eq] at hx2
        exact ⟨x, hmem, by simpa using hteam, hx2.1, hx2.2, hu⟩
  · intro hno
    unfold findOnCallUser
    have hl : (schedules.filter (fun s => s.team_id == teamId)).filter
        (fun s => decide (s.start ≤ now) && decide (now < s.endTs)) = [] := by
      rw [List.filter_eq_nil_iff]
      intro s hs
      rw [List.mem_filter] at hs
      obtain ⟨hmem, hteam⟩ := hs
      have := hno s hmem (by simpa using hteam)
      simp only [Bool.and_eq_true, decide_eq_true_eq]
      exact fun hc => this hc
    rw [hl]
    rfl
  · intro t1 t2 t3 a b ha hb
    refine ⟨?_, ?_, ?_⟩
    · intro h1 h2
      simp [findOnCallUser, List.filter_cons, h1, h2, ha]
    · intro h1 h2
      have h3 : ¬(now < t2) := by omega
      simp [findOnCallUser, List.filter_cons, h1, h2, h3, hb]
    · intro ho1 ho2 hc
      rcases hc with h | h
      · have h1 : ¬(t1 ≤ now) := by omega
        have h2 : ¬(t2 ≤ now) := by omega
        simp [findOnCallUser, List.filter_cons, h1, h2]
      · have h1 : ¬(now < t2) := by omega
        have h2 : ¬(now < t3) := by omega
        simp [findOnCallUser, List.filter_cons, h1, h2]

/-- Witness for claim C5 on a concrete schedule: team t1 has alice on call on
[0, 10) and bob on [10, 20); resolution at time 5 returns alice. -/
theorem findOnCall_correct_witness :
    findOnCallUser [⟨"t1", "s1", "alice", 0, 10⟩, ⟨"t1", "s2", "bob", 10, 20⟩]
      "t1" 5 = some "alice" :=
  ((findOnCall_correct [] "t1" 5).2.2 0 10 20 "alice" "bob"
    (by decide) (by decide)).1 (by decide) (by decide)

/-- The severity-derived multiplier SEVERITIES[s] || 2 is always at least 1. -/
theorem severityMultiplier_pos (s : String) :
    1 ≤ jsOrNat (severitiesLookup s) 2 := by
  unfold severitiesLookup
  split_ifs <;> simp [jsOrNat]

/-- Adding points through the score UpdateCommand raises exactly the acting
cumulative total of that user by those points. -/
theorem getScore_bumpScore (uid : String) (pts : Nat) (scores : List ScoreRow) :
    getScore (bumpScore scores uid pts) uid = getScore scores uid + pts := by
  unfold bumpScore
  by_cases h : scores.any (fun r => r.user_id == uid)
  · rw [if_pos h]
    revert h
    induction scores with
    | nil => intro h; simp at h
    | cons r rest ih =>
      intro h
      by_cases hr : r.user_id = uid
      · simp [getScore, List.find?_cons, hr]
      · have hrest : rest.any (fun x => x.user_id == uid) = true := by
          simpa [List.any_cons, hr] using h
        have hih := ih hrest
        simpa [getScore, List.find?_cons, hr] using hih
  · rw [if_neg h]
    have h2 : scores.any (fun r => r.user_id == uid) = false := by
      simpa using h
    have hnone : scores.find? (fun r => r.user_id == uid) = none := by
      rw [List.find?_eq_none]
      intro x hx
      have := (List.any_eq_false.mp h2) x hx
      simpa using this
    unfold getScore
    rw [List.find?_append, hnone]
    simp

/-- A triggered game incident created by a critical game trigger at time 0. -/
def exGameInc : GameIncident :=
  { incident_id := "g1"
    alarm_name := "[GAME] fire"
    severity := "critical"
    state := .triggered
    team_id := "game"
    triggered_by := "dan"
    triggered_by_name := "dan"
    created_at := 0
    game := true
    point_multiplier := 3 }

/-- Claim C6: a game acknowledgement that finds the game incident still
triggered wins the race: it answers success with points equal to the base
10 times the severity-derived multiplier times the speed bonus (2x below
2 seconds elapsed since trigger, 1.5x below 4 seconds, 1x otherwise; the
tier factors 20, 15, 10 are the exact values of Math.round(10 * bonus)),
the incident is acked, and exactly those points are added to the
cumulative score of the acknowledger. An acknowledgement of a game incident no
longer triggered answers success false with 0 points and changes neither
the store nor any score. -/
theorem game_ack_scoring (session : Option GameSession) (now : Int)
    (u dn id : String) (store : List GameIncident) (scores : List ScoreRow)
    (inc : GameIncident)
    (hactive : sessionActive session now = true)
    (hfind : store.find? (fun i => i.incident_id == id) = some inc)
    (hgame : inc.game = true)
    (hmult : inc.point_multiplier = jsOrNat (severitiesLookup inc.severity) 2) :
    (inc.state = IncState.triggered →
       gameAck session now u dn id store scores
         = (GameAckResult.done true
              (gameAckPoints inc.point_multiplier (now - inc.created_at)),
            store.map (fun i => if i.incident_id == id then
              { inc with state := IncState.acked, acked_by := some u,
                         acked_by_name := some dn, acked_at := some now }
              else i),
            bumpScore scores u
              (gameAckPoints inc.point_multiplier (now - inc.created_at))) ∧
       gameAckPoints inc.point_multiplier (now - inc.created_at)
         = (if now - inc.created_at < 2000 then 20
            else if now - inc.created_at < 4000 then 15 else 10)
             * jsOrNat (severitiesLookup inc.severity) 2 ∧
       getScore (bumpScore scores u
           (gameAckPoints inc.point_multiplier (now - inc.created_at))) u
         = getScore scores u
             + gameAckPoints inc.point_multiplier (now - inc.created_at)) ∧
    (¬(inc.state = IncState.triggered) →
       gameAck session now u dn id store scores
         = (GameAckResult.done false 0, store, scores)) := by
  have hpos : 1 ≤ jsOrNat (severitiesLookup inc.severity) 2 :=
    severityMultiplier_pos inc.severity
  have hmne : ¬(inc.point_multiplier = 0) := by omega
  have hj : jsOrNat (some inc.point_multiplier) 1 = inc.point_multiplier := by
    simp [jsOrNat, hmne]
  refine ⟨fun hs => ⟨?_, ?_, getScore_bumpScore u _ scores⟩, fun hs => ?_⟩
  · simp [gameAck, hactive, hfind, hgame, hs, hj]
  · rw [hmult]
    unfold gameAckPoints
    split_ifs <;> ring
  · simp [gameAck, hactive, hfind, hgame, hs]

/-- Witness for claim C6: eve acks the critical game incident 1000 ms after
its trigger and wins. -/
theorem game_ack_scoring_witness :
    gameAck (some ⟨60000, 0, "dan"⟩) 1000 "eve" "eve" "g1" [exGameInc] []
      = (GameAckResult.done true
           (gameAckPoints exGameInc.point_multiplier (1000 - exGameInc.created_at)),
         [exGameInc].map (fun i => if i.incident_id == "g1" then
           { exGameInc with state := IncState.acked, acked_by := some "eve",
                            acked_by_name := some "eve", acked_at := some 1000 }
           else i),
         bumpScore [] "eve"
           (gameAckPoints exGameInc.point_multiplier (1000 - exGameInc.created_at))) :=
  ((game_ack_scoring (some ⟨60000, 0, "dan"⟩) 1000 "eve" "eve" "g1" [exGameInc] []
      exGameInc (by decide) (by decide) (by decide) (by decide)).1 (by decide)).1

/-- Claim C7: game session gating. With no active session a trigger call is
rejected with the no-active-game outcome and creates no incident; a start
call while a session is active is rejected with a conflict reporting the
end time of the existing session and starter; a successful start answers an end
time ROUND_DURATION_MS = 60000 ms in the future and installs that session;
and while the installed session is active (up to its end time) a trigger
call with a valid title succeeds and appends the game incident. -/
theorem game_session_gating (session : Option GameSession) (now : Int)
    (u dn : String) (bt bs : Option String) (nid : String)
    (store : List GameIncident) :
    (sessionActive session now = false →
       gameTrigger session now u dn bt bs nid store
         = (GameTriggerResult.noActiveGame, store)) ∧
    (∀ s, session = some s → sessionActive session now = true →
       gameStart session now dn
         = (GameStartResult.conflict s.session_ends_at s.started_by, session)) ∧
    (sessionActive session now = false →
       gameStart session now dn
         = (GameStartResult.ok (now + 60000) 60000 dn,
            some { session_ends_at := now + 60000, started_at := now,
                   started_by := dn })) ∧
    (∀ now2 t, 0 ≤ now → now ≤ now2 → now2 ≤ now + 60000 →
       ¬(jsTrim t = "") → (jsTrim t).length ≤ 50 →
       gameTrigger
           (some { session_ends_at := now + 60000, started_at := now,
                   started_by := dn })
           now2 u dn (some t) bs nid store
         = (GameTriggerResult.ok nid ("[GAME] " ++ jsTrim t),
            store ++ [{ incident_id := nid
                        alarm_name := "[GAME] " ++ jsTrim t
                        severity := jsOrStr bs "warning"
                        state := .triggered
                        team_id := "game"
                        triggered_by := u
                        triggered_by_name := dn
                        created_at := now2
                        game := true
                        point_multiplier :=
                          jsOrNat (severitiesLookup (jsOrStr bs "warning")) 2 }])) := by
  refine ⟨fun h => ?_, fun s hs h => ?_, fun h => ?_, fun now2 t h0 h1 h2 ht hl => ?_⟩
  · simp [gameTrigger, h]
  · subst hs
    simp [gameStart, h]
  · simp [gameStart, h, ROUND_DURATION_MS]
  · have hact : sessionActive
        (some { session_ends_at := now + 60000, started_at := now,
                started_by := dn }) now2 = true := by
      simp [sessionActive]
      omega
    have hlen : ¬((jsTrim t).length > 50) := by omega
    simp [gameTrigger, hact, ht, hlen]

/-- Witness for claim C7: after a start at time 0 by eve, a trigger at time
1000 with title "fire" succeeds. -/
theorem game_session_gating_witness :
    gameTrigger
        (some { session_ends_at := 0 + 60000, started_at := 0,
                started_by := "eve" })
        1000 "eve" "eve" (some "fire") none "g9" []
      = (GameTriggerResult.ok "g9" ("[GAME] " ++ jsTrim "fire"),
         [] ++ [{ incident_id := "g9"
                  alarm_name := "[GAME] " ++ jsTrim "fire"
                  severity := jsOrStr none "warning"
                  state := .triggered
                  team_id := "game"
                  triggered_by := "eve"
                  triggered_by_name := "eve"
                  created_at := 1000
                  game := true
                  point_multiplier :=
                    jsOrNat (severitiesLookup (jsOrStr none "warning")) 2 }]) :=
  (game_session_gating none 0 "eve" "eve" (some "fire") none "g9" []).2.2.2
    1000 "fire" (by decide) (by decide) (by decide) (by decide) (by decide)

/-- Claim C8: every dispatched push carries as badge the live count, read
from the incidents table at dispatch time, of incidents in state triggered
assigned to the notified responder — the owner of the device the push goes
to. -/
theorem badge_is_live_triggered_count (store : List Incident)
    (devices : List Device) (r : StreamRecord) (d : Device) (p : PushPayload)
    (hmem : (d, p) ∈ streamDispatch store devices r) :
    p.badge = (store.filter (fun i =>
      i.assigned_to == d.user_id && i.state == IncState.triggered)).length := by
  cases hp : parseStateChange r with
  | none => simp [streamDispatch, hp] at hmem
  | some change =>
    cases hb : buildNotification change with
    | none => simp [streamDispatch, hp, hb] at hmem
    | some notif =>
      by_cases he : (getUserDevices devices change.incident.assigned_to).isEmpty
      · simp [streamDispatch, hp, hb, he] at hmem
      · rw [show streamDispatch store devices r
            = (getUserDevices devices change.incident.assigned_to).map (fun d =>
                (d, { title := notif.title, body := notif.body, sound := notif.sound,
                      interruptionLevel := notif.interruptionLevel,
                      badge := getUnackedIncidentCount store change.incident.assigned_to,
                      data := { incident_id := change.incident.incident_id,
                                severity := change.incident.severity,
                                state := change.incident.state } }))
            from by simp [streamDispatch, hp, hb, he]] at hmem
        rw [List.mem_map] at hmem
        obtain ⟨d0, hd0, heq⟩ := hmem
        have hd : d0 = d := congrArg Prod.fst heq
        have hpay := congrArg Prod.snd heq
        subst hd
        unfold getUserDevices at hd0
        rw [List.mem_filter] at hd0
        have huser : d0.user_id = change.incident.assigned_to := by
          simpa using hd0.2
        simp only at hpay
        rw [← hpay]
        simp [getUnackedIncidentCount, huser]

/-- A registered device of alice. -/
def exDevice : Device :=
  { user_id := "alice", device_token := "tok-1", platform := "ios",
    created_at := 0 }

/-- The stream record of the insertion of the triggered incident inc-2. -/
def exInsertRecord : StreamRecord :=
  { eventName := .INSERT, newImage := some exTriggeredInc }

/-- The payload dispatched for that insertion. -/
def exInsertPayload : PushPayload :=
  { title := "🟡 WARNING: cpu high"
    body := "threshold crossed"
    sound := "default"
    interruptionLevel := "time-sensitive"
    badge := 1
    data := { incident_id := "inc-2", severity := .warning, state := .triggered } }

/-- Witness for claim C8 on the insertion of inc-2, assigned to alice who
has one triggered incident. -/
theorem badge_is_live_triggered_count_witness :
    exInsertPayload.badge = ([exTriggeredInc].filter (fun i =>
      i.assigned_to == exDevice.user_id && i.state == IncState.triggered)).length :=
  badge_is_live_triggered_count [exTriggeredInc] [exDevice] exInsertRecord
    exDevice exInsertPayload (by decide)

/-- Claim C9 counterexample: with a state filter but no team filter the list
route ignores the state filter: filtering for state "triggered" over a store
whose only incident is acked (team "default") returns that acked
incident. -/
theorem list_ignores_state_without_team :
    incidentsHandler (some "bob") "GET" ["incidents"] (some "triggered") none
        none none 0 [exAckedInc]
      = (Resp.okList [exAckedInc], [exAckedInc]) ∧
    ¬(exAckedInc.state = IncState.triggered) := by
  decide

/-- Claim C9 (amended): when both a team and a state filter are supplied, an
incident is returned iff it matches both; with only a team filter, iff it
has that team; but when no (truthy) team filter is supplied — with or
without a state filter — the state filter is ignored and the result is
exactly the incidents of the hard-coded team "default". -/
theorem list_filtering (store : List Incident) (qt qs : Option String)
    (inc : Incident) :
    (jsTruthyStr qt = true → jsTruthyStr qs = true →
       (inc ∈ listIncidents store qt qs ↔
         inc ∈ store ∧ inc.team_id = qt.getD "" ∧ inc.state.toStr = qs.getD "")) ∧
    (jsTruthyStr qt = true → jsTruthyStr qs = false →
       (inc ∈ listIncidents store qt qs ↔
         inc ∈ store ∧ inc.team_id = qt.getD "")) ∧
    (jsTruthyStr qt = false →
       (inc ∈ listIncidents store qt qs ↔
         inc ∈ store ∧ inc.team_id = "default")) := by
  refine ⟨fun h1 h2 => ?_, fun h1 h2 => ?_, fun h1 => ?_⟩
  · simp [listIncidents, h1, h2, List.mem_filter, and_assoc]
  · simp [listIncidents, h1, h2, List.mem_filter]
  · simp [listIncidents, h1, List.mem_filter]

/-- Witness for the amended C9 theorem: the acked default-team incident is
returned by the (team, state) = ("default", "acked") query. -/
theorem list_filtering_witness :
    exAckedInc ∈ listIncidents [exAckedInc] (some "default") (some "acked") :=
  ((list_filtering [exAckedInc] (some "default") (some "acked") exAckedInc).1
    (by decide) (by decide)).mpr ⟨by decide, by decide, by decide⟩

/-- startsWithL holds exactly when the pattern is an initial segment. -/
theorem startsWithL_iff (pat : List Char) :
    ∀ s, startsWithL s pat = true ↔ ∃ r, s = pat ++ r := by
  induction pat with
  | nil =>
    intro s
    constructor
    · intro _; exact ⟨s, rfl⟩
    · intro _; cases s <;> rfl
  | cons b bs ih =>
    intro s
    cases s with
    | nil =>
      simp [startsWithL]
    | cons a as =>
      constructor
      · intro h
        simp only [startsWithL, Bool.and_eq_true, beq_iff_eq] at h
        obtain ⟨hab, hrest⟩ := h
        obtain ⟨r, hr⟩ := (ih as).mp hrest
        exact ⟨r, by simp [hab, hr]⟩
      · intro h
        obtain ⟨r, hr⟩ := h
        simp only [List.cons_append, List.cons.injEq] at hr
        obtain ⟨hab, hrest⟩ := hr
        simp only [startsWithL, Bool.and_eq_true, beq_iff_eq]
        exact ⟨hab, (ih as).mpr ⟨r, hrest⟩⟩

/-- includesL holds exactly when the pattern occurs contiguously. -/
theorem includesL_iff (pat : List Char) :
    ∀ s, includesL s pat = true ↔ ∃ l r, s = l ++ pat ++ r := by
  intro s
  induction s with
  | nil =>
    simp only [includesL, List.isEmpty_iff]
    constructor
    · intro h; exact ⟨[], [], by simp [h]⟩
    · intro h
      obtain ⟨l, r, hr⟩ := h
      rcases List.append_eq_nil.mp (List.append_eq_nil.mp hr.symm).1 with ⟨_, h2⟩
      exact h2
  | cons c cs ih =>
    simp only [includesL, Bool.or_eq_true]
    constructor
    · intro h
      rcases h with h | h
      · obtain ⟨r, hr⟩ := (startsWithL_iff pat (c :: cs)).mp h
        exact ⟨[], r, by simp [hr]⟩
      · obtain ⟨l, r, hr⟩ := ih.mp h
        exact ⟨c :: l, r, by simp [hr]⟩
    · intro h
      obtain ⟨l, r, hr⟩ := h
      cases l with
      | nil =>
        exact Or.inl ((startsWithL_iff pat (c :: cs)).mpr ⟨r, by simpa using hr⟩)
      | cons x xs =>
        simp only [List.cons_append, List.cons.injEq] at hr
        exact Or.inr (ih.mpr ⟨xs, r, hr.2⟩)

/-- Case-insensitive containment of a (lowercase) pattern in a string, stated
as the existence of a contiguous decomposition of the lowered character
list — the specification-side reading of "the name contains the word,
case-insensitively". -/
def hasSubCI (s pat : String) : Prop :=
  ∃ l r, (jsToLower s).data = l ++ pat.data ++ r

/-- Claim C10: severity derivation from the alarm name alone. A name
containing "critical" or "error" case-insensitively maps to critical;
otherwise one containing "warning" or "warn" maps to warning; every other
name maps to info; and the incident created by alarm ingestion carries
exactly determineSeverity of its alarm name. -/
theorem determineSeverity_spec (name : String) :
    (determineSeverity name = Severity.critical ↔
       (hasSubCI name "critical" ∨ hasSubCI name "error")) ∧
    (determineSeverity name = Severity.warning ↔
       (¬(hasSubCI name "critical" ∨ hasSubCI name "error") ∧
        (hasSubCI name "warning" ∨ hasSubCI name "warn"))) ∧
    (determineSeverity name = Severity.info ↔
       (¬(hasSubCI name "critical" ∨ hasSubCI name "error") ∧
        ¬(hasSubCI name "warning" ∨ hasSubCI name "warn"))) ∧
    (∀ (msg : CloudWatchAlarmMessage) (teamId onCall : String) (now : Int)
       (newId : String),
       (createIncident msg teamId onCall now newId).severity
         = determineSeverity msg.AlarmName) := by
  have hc : (jsIncludes (jsToLower name) "critical"
        || jsIncludes (jsToLower name) "error") = true
      ↔ (hasSubCI name "critical" ∨ hasSubCI name "error") := by
    simp [jsIncludes, hasSubCI, Bool.or_eq_true, includesL_iff]
  have hw : (jsIncludes (jsToLower name) "warning"
        || jsIncludes (jsToLower name) "warn") = true
      ↔ (hasSubCI name "warning" ∨ hasSubCI name "warn") := by
    simp [jsIncludes, hasSubCI, Bool.or_eq_true, includesL_iff]
  refine ⟨?_, ?_, ?_, fun msg t o n i => rfl⟩ <;>
    · simp only [← hc, ← hw]
      unfold determineSeverity
      cases h1 : (jsIncludes (jsToLower name) "critical"
          || jsIncludes (jsToLower name) "error") <;>
        cases h2 : (jsIncludes (jsToLower name) "warning"
            || jsIncludes (jsToLower name) "warn") <;>
          simp [h1, h2]

/-- The alarm message of the ingestion witness. -/
def exMsg : CloudWatchAlarmMessage :=
  { AlarmName := "Disk ERROR rate"
    AlarmArn := "arn:cw:alarm:disk"
    NewStateValue := "ALARM"
    NewStateReason := "threshold crossed"
    StateChangeTime := "t"
    Region := "eu-west-1"
    AWSAccountId := "111" }

/-- Witness for claim C10: "Disk ERROR rate" contains "error"
case-insensitively and is classified critical, and ingestion stores exactly
that severity. -/
theorem determineSeverity_spec_witness :
    determineSeverity "Disk ERROR rate" = Severity.critical ∧
    (createIncident exMsg "T1" "alice" 0 "inc-9").severity
      = determineSeverity exMsg.AlarmName :=
  ⟨(determineSeverity_spec "Disk ERROR rate").1.mpr
     (Or.inr ⟨"disk ".data, " rate".data, by decide⟩),
   (determineSeverity_spec "Disk ERROR rate").2.2.2 exMsg "T1" "alice" 0 "inc-9"⟩
